import Mathlib

/-
Verification of the FinanzBOT relevance / deduplication / idea-acceptance
pipeline (src/finanzbot.py) against its natural-language specification.
The Python source is shallowly embedded: pure functions become Lean
functions, the stateful main loop becomes explicit state passing plus an
event trace, floats become rationals, and the external calls (RSS fetch,
Gemini, file IO) become parameters of the functions that consume their
results.
-/

namespace FinanzBot

/-- Python's substring test `pat in text`, on the character lists of the
two strings: `pat` occurs contiguously somewhere in `text`. -/
def charsInfixOf (pat : List Char) : List Char → Bool
  | [] => pat.isEmpty
  | c :: rest => pat.isPrefixOf (c :: rest) || charsInfixOf pat rest

/-- `strContains text pat` is Python's `pat in text`. -/
def strContains (text pat : String) : Bool :=
  charsInfixOf pat.data text.data

/-- Python's `str.lower()`: lowercase every character. Defined over the
character list so that it reduces inside the kernel. -/
def lowerStr (s : String) : String :=
  ⟨s.data.map Char.toLower⟩

/-- Python's `str.upper()`: uppercase every character. -/
def upperStr (s : String) : String :=
  ⟨s.data.map Char.toUpper⟩

/-- A normalized feed item as the dictionaries built by `fetch_news_rss`:
only the fields the pipeline claims use (`title`, `summary`, `url`). -/
structure NewsItem where
  title : String
  summary : String
  url : String
  deriving DecidableEq

/-- `relevance_score` from src/finanzbot.py lines 118-124: lowercase the
concatenation of title and summary, add 1 per configured keyword found as a
substring, subtract 2 when the text carries a press-release marker
("dgap-news" or "original-research"). The keyword list comes from
config.json and is a parameter here. -/
def relevance_score (keywords : List String) (item : NewsItem) : Int :=
  let text := lowerStr (item.title ++ " " ++ item.summary)
  let score := keywords.foldl (fun s k => if strContains text k then s + 1 else s) (0 : Int)
  if strContains text "dgap-news" || strContains text "original-research" then
    score - 2
  else
    score

/-- A raw idea candidate as validated by the `IdeaItem` pydantic model
(src/finanzbot.py lines 52-58); `vertrauen` (the confidence float) is
embedded as a rational. -/
structure IdeaItem where
  name : String
  typ : String
  signal : String
  begruendung : String
  vertrauen : ℚ
  betrifft_portfolio : Bool
  deriving DecidableEq

/-- The extraction client's validated output (`IdeaOutput`, line 60-61). -/
structure IdeaOutput where
  ideen : List IdeaItem
  deriving DecidableEq

/-- `MIN_CONF_PORTFOLIO` from line 28. -/
def MIN_CONF_PORTFOLIO : ℚ := 60

/-- `MIN_CONF_NEW_GEM` from line 29. -/
def MIN_CONF_NEW_GEM : ℚ := 95

/-- The dashboard's display-time confidence normalization, line 373 of the
source: `score = i.vertrauen * 100 if i.vertrauen <= 1 else i.vertrauen`. -/
def normalizeConfidence (v : ℚ) : ℚ :=
  if v ≤ 1 then v * 100 else v

/-- Modelled from the spec: the two-step normalization rule as the spec
words it — first divide by 100 when the raw value exceeds 100, then
multiply by 100 when the adjusted value is at most 1. Stated only to be
compared against `normalizeConfidence`, the rule the code applies. -/
def specNormalize (raw : ℚ) : ℚ :=
  let adjusted := if raw > 100 then raw / 100 else raw
  if adjusted ≤ 1 then adjusted * 100 else adjusted

/-- The actionability test of main's acceptance loop (line 492):
`is_action = ("KAUF" in sig) or ("VERKAUF" in sig)` over the uppercased
signal. -/
def isActionSignal (idee : IdeaItem) : Bool :=
  let sig := upperStr idee.signal
  strContains sig "KAUF" || strContains sig "VERKAUF"

/-- One iteration of main's acceptance loop, lines 489-497: an idea lands
in `relevant_items` exactly when this returns true. The raw `vertrauen`
value is compared against the thresholds with no normalization. -/
def acceptsIdea (idee : IdeaItem) : Bool :=
  if isActionSignal idee then
    if idee.betrifft_portfolio && decide (idee.vertrauen ≥ MIN_CONF_PORTFOLIO) then
      true
    else if !idee.betrifft_portfolio && decide (idee.vertrauen ≥ MIN_CONF_NEW_GEM) then
      true
    else
      false
  else
    false

/-- `relevant_items` after the loop over the extraction output. -/
def relevantItems (ideen : List IdeaItem) : List IdeaItem :=
  ideen.filter acceptsIdea

/-- `load_last_ids` (lines 74-79). The file system is a parameter: `file`
is the state file's contents when it exists (`none` when missing), and
`parseJson` is `set(json.load(f))` — `none` when that raises (corrupt or
non-iterable JSON), in which case the bare `except` returns the empty set. -/
def load_last_ids (file : Option String)
    (parseJson : String → Option (List String)) : Finset String :=
  match file with
  | none => ∅
  | some contents =>
    match parseJson contents with
    | some ids => ids.toFinset
    | none => ∅

/-- `current_ids = {n["url"] for n in filtered_news}` (line 481). -/
def currentIds (filtered : List NewsItem) : Finset String :=
  (filtered.map (fun n => n.url)).toFinset

/-- `new_ids = current_ids - last_ids` (line 482). -/
def newIds (filtered : List NewsItem) (lastIds : Finset String) : Finset String :=
  currentIds filtered \ lastIds

/-- `final_news_for_ai = [n for n in filtered_news if n["url"] in new_ids]`
(line 483). -/
def finalNewsForAI (filtered : List NewsItem) (lastIds : Finset String) : List NewsItem :=
  filtered.filter (fun n => n.url ∈ newIds filtered lastIds)

/-- `if final_news_for_ai:` (line 486) — the only condition guarding the
call to `analyze_with_gemini`. -/
def extractionInvoked (filtered : List NewsItem) (lastIds : Finset String) : Bool :=
  !(finalNewsForAI filtered lastIds).isEmpty

/-- Modelled from the spec: the Notification Gate's three disjuncts (high
single-item score, a cluster of at least 3 members with average score at
least the medium threshold, or batch breadth), over the new relevant
items' scores and their topic clusters. Stated only to be compared with
`extractionInvoked`, the decision the code makes. -/
def specGate (scores : List Int) (clusters : List (List Int)) : Bool :=
  scores.any (fun s => s ≥ 6) ||
  clusters.any (fun c => c.length ≥ 3 && decide (c.sum ≥ 3 * (c.length : Int))) ||
  scores.length ≥ 6

/-- `analyze_with_gemini` (lines 213-230) with the network abstracted: one
entry of `attempts` per model in the priority list, `some out` when that
model's call, fence-stripping, JSON parse and pydantic validation all
succeed (the loop returns immediately), `none` when any of them raises
(the loop falls through to the next model). After the last model the
function returns the empty `IdeaOutput`. -/
def analyze_with_gemini : List (Option IdeaOutput) → IdeaOutput
  | [] => ⟨[]⟩
  | attempt :: rest =>
    match attempt with
    | some out => out
    | none => analyze_with_gemini rest

/-- The observable events of one `main` run (lines 463-501): the Gemini
call, the `save_last_ids` commit, and the dashboard write that delivers
the run's output. -/
inductive Event where
  | extract
  | save
  | deliver
  deriving DecidableEq

/-- The order of `main`'s effects (lines 484-501): when
`final_news_for_ai` is nonempty the Gemini call runs, and when its
`ideen` list is nonempty the seen-ID commit follows; the dashboard write
(delivery) always comes last, after `get_market_data`. `ideen` stands for
the extraction result of this run. -/
def mainTrace (filtered : List NewsItem) (lastIds : Finset String)
    (ideen : List IdeaItem) : List Event :=
  (if (finalNewsForAI filtered lastIds).isEmpty then
    []
  else
    [Event.extract] ++ (if ideen.isEmpty then [] else [Event.save])) ++ [Event.deliver]

/-- The persisted seen-ID set when the run ends: `save_last_ids(last_ids.
union(current_ids))` (line 498) runs only under `if final_news_for_ai:`
and `if ai_result.ideen:`; otherwise the state file is untouched. -/
def runEndState (lastIds : Finset String) (filtered : List NewsItem)
    (ideen : List IdeaItem) : Finset String :=
  if (finalNewsForAI filtered lastIds).isEmpty then
    lastIds
  else if ideen.isEmpty then
    lastIds
  else
    lastIds ∪ currentIds filtered

example : strContains "verkaufen jetzt" "kauf" = true := by decide
example : strContains "halten" "kauf" = false := by decide
example : relevance_score ["bitcoin"] ⟨"Bitcoin rally", "", "u1"⟩ = 1 := by decide
example : relevance_score ["bitcoin"] ⟨"dgap-news", "", "u2"⟩ = -2 := by decide
example : normalizeConfidence (8/10) = 80 := by norm_num [normalizeConfidence]
example : normalizeConfidence 150 = 150 := by norm_num [normalizeConfidence]
example : specNormalize 150 = 3/2 := by norm_num [specNormalize]
example : acceptsIdea ⟨"X", "Aktie", "VERKAUF", "r", 95, false⟩ = true := by decide
example : acceptsIdea ⟨"X", "Aktie", "HALTEN", "r", 99, true⟩ = false := by decide
example : acceptsIdea ⟨"X", "Aktie", "Kauf", "r", 60, true⟩ = true := by decide
example : acceptsIdea ⟨"X", "Aktie", "Kauf", "r", 94, false⟩ = false := by decide
example : extractionInvoked [⟨"Bitcoin rally", "", "u1"⟩] ∅ = true := by decide
example : extractionInvoked [⟨"Bitcoin rally", "", "u1"⟩] {"u1"} = false := by decide
example : specGate [1] [[1]] = false := by decide
example : specGate [2, 3, 4] [[2, 3, 4]] = true := by decide
example : analyze_with_gemini [none, none, none] = ⟨[]⟩ := by decide
example : mainTrace [⟨"Bitcoin rally", "", "u1"⟩] ∅ [⟨"X", "Aktie", "Kauf", "r", 60, true⟩]
    = [Event.extract, Event.save, Event.deliver] := by decide
example : mainTrace [] ∅ [] = [Event.deliver] := by decide
example : load_last_ids none (fun _ => none) = ∅ := by decide
example : load_last_ids (some "garbage") (fun _ => none) = ∅ := by decide
example : load_last_ids (some "x") (fun _ => some ["u1"]) = {"u1"} := by decide

/-- A relevant item used as a concrete run fixture: one keyword match,
score 1, url "u1". -/
def gateItem : NewsItem := ⟨"Bitcoin rally", "", "u1"⟩

/-- A buy idea on a held position with confidence 60, accepted by the
filter. -/
def kaufIdea : IdeaItem := ⟨"X", "Aktie", "Kauf", "r", 60, true⟩

/-- A sell idea on an asset not held, with confidence 95. -/
def sellGem : IdeaItem := ⟨"DeadCorp", "Aktie", "VERKAUF", "short", 95, false⟩

/-- The keyword fold of `relevance_score` never decreases its
accumulator: it adds 1 per matching keyword and nothing else. -/
theorem keyword_fold_ge (text : String) (l : List String) (a : Int) :
    a ≤ l.foldl (fun s k => if strContains text k then s + 1 else s) a := by
  induction l generalizing a with
  | nil => simp
  | cons k rest ih =>
    simp only [List.foldl_cons]
    refine le_trans ?_ (ih _)
    split <;> omega

/-- C1 (counterexample): the code's confidence normalization (line 373)
has no divide-by-100 step — a raw value of 150 is displayed as 150, outside
[0,100], while the claimed two-step rule would yield 3/2; so the claim's
rule and range both fail on the code. -/
theorem confidence_norm_out_of_range :
    normalizeConfidence 150 = 150 ∧ ¬ normalizeConfidence 150 ≤ 100 ∧
    specNormalize 150 = 3 / 2 := by
  norm_num [normalizeConfidence, specNormalize]

/-- C1 (amended): the display-time normalization multiplies by 100 when the
raw value is at most 1 and otherwise leaves it unchanged; for raw values in
[0,100] the result stays in [0,100], and normalize(0.8) = 80,
normalize(85) = 85. -/
theorem confidence_norm_range (r : ℚ) (h0 : 0 ≤ r) (h1 : r ≤ 100) :
    (0 ≤ normalizeConfidence r ∧ normalizeConfidence r ≤ 100) ∧
    normalizeConfidence (8 / 10) = 80 ∧ normalizeConfidence 85 = 85 := by
  refine ⟨?_, by norm_num [normalizeConfidence], by norm_num [normalizeConfidence]⟩
  unfold normalizeConfidence
  constructor <;> split <;> nlinarith

/-- C1 (witness): the amended statement at the concrete raw value 50. -/
theorem confidence_norm_range_witness :
    (0 ≤ normalizeConfidence 50 ∧ normalizeConfidence 50 ≤ 100) ∧
    normalizeConfidence (8 / 10) = 80 ∧ normalizeConfidence 85 = 85 :=
  confidence_norm_range 50 (by norm_num) (by norm_num)

/-- C2 (counterexample): a sell-like idea ("VERKAUF") on an asset not held
is accepted by the filter once its confidence reaches the new-discovery
threshold — the code's `is_action` test admits sell signals for non-held
assets too. -/
theorem sell_not_held_accepted :
    sellGem.betrifft_portfolio = false ∧
    strContains (upperStr sellGem.signal) "VERKAUF" = true ∧
    acceptsIdea sellGem = true := by
  decide

/-- C2 (amended): an idea with `betrifft_portfolio = false` is accepted
iff its signal is actionable (buy-like or sell-like, "KAUF" or "VERKAUF"
in the uppercased signal) and its raw confidence is at least
`MIN_CONF_NEW_GEM`; sell-like ideas on assets not held are accepted under
the same bar. -/
theorem new_gem_acceptance (i : IdeaItem) (h : i.betrifft_portfolio = false) :
    acceptsIdea i = true ↔
      (isActionSignal i = true ∧ i.vertrauen ≥ MIN_CONF_NEW_GEM) := by
  unfold acceptsIdea
  by_cases ha : isActionSignal i <;> simp [ha, h]

/-- C2 (witness): the amended acceptance rule at the concrete sell idea. -/
theorem new_gem_acceptance_witness :
    acceptsIdea sellGem = true ↔
      (isActionSignal sellGem = true ∧ sellGem.vertrauen ≥ MIN_CONF_NEW_GEM) :=
  new_gem_acceptance sellGem rfl

/-- C3 (counterexample): the relevance scorer returns a negative score for
an item whose text carries a press-release marker and matches no keyword. -/
theorem relevance_score_negative :
    relevance_score ["bitcoin"] ⟨"dgap-news", "", "u2"⟩ = -2 ∧
    relevance_score ["bitcoin"] ⟨"dgap-news", "", "u2"⟩ < 0 := by
  decide

/-- C3 (amended): the relevance scorer returns an integer that is at least
-2 — the keyword fold is non-negative and the press-release penalty
subtracts exactly 2 — but it is not always non-negative. -/
theorem relevance_score_lower_bound (keywords : List String) (item : NewsItem) :
    relevance_score keywords item ≥ -2 := by
  simp only [relevance_score]
  have h0 := keyword_fold_ge (lowerStr (item.title ++ " " ++ item.summary)) keywords 0
  split <;> omega

/-- C4 (counterexample): a single new relevant item of score 1 satisfies
none of the claimed gate conditions (no score ≥ 6, no cluster of 3, count
1 < 6), yet the code invokes extraction — the only guard in the code is
that the new-item list is nonempty. -/
theorem gate_mismatch :
    relevance_score ["bitcoin"] gateItem = 1 ∧
    specGate [relevance_score ["bitcoin"] gateItem]
      [[relevance_score ["bitcoin"] gateItem]] = false ∧
    extractionInvoked [gateItem] ∅ = true := by
  decide

/-- C4 (amended): the expensive idea-extraction call is made exactly when
the run has at least one filtered relevant item whose id is not in the
loaded seen set — equivalently, iff the new-item list is nonempty; in
particular extraction is not invoked on an empty set. -/
theorem extraction_iff_new_item (f : List NewsItem) (s : Finset String) :
    extractionInvoked f s = true ↔ ∃ n ∈ f, n.url ∉ s := by
  unfold extractionInvoked
  rw [Bool.not_eq_true', List.isEmpty_eq_false]
  constructor
  · intro h
    obtain ⟨n, hn⟩ := List.exists_mem_of_ne_nil _ h
    unfold finalNewsForAI at hn
    have hmem := List.mem_filter.mp hn
    have hurl : n.url ∈ newIds f s := by simpa using hmem.2
    exact ⟨n, hmem.1, (Finset.mem_sdiff.mp hurl).2⟩
  · rintro ⟨n, hnf, hns⟩
    have hcur : n.url ∈ currentIds f := by
      unfold currentIds
      simp only [List.mem_toFinset, List.mem_map]
      exact ⟨n, hnf, rfl⟩
    have hnew : n.url ∈ newIds f s := Finset.mem_sdiff.mpr ⟨hcur, hns⟩
    have : n ∈ finalNewsForAI f s := by
      unfold finalNewsForAI
      exact List.mem_filter.mpr ⟨hnf, by simpa using hnew⟩
    exact List.ne_nil_of_mem this

/-- C5 (counterexample): in a concrete run with a new item and a nonempty
extraction result, the seen-ID commit happens strictly before the delivery
step — not after it as the claim states. -/
theorem save_before_deliver :
    mainTrace [gateItem] ∅ [kaufIdea] = [Event.extract, Event.save, Event.deliver] ∧
    (mainTrace [gateItem] ∅ [kaufIdea]).indexOf Event.save <
      (mainTrace [gateItem] ∅ [kaufIdea]).indexOf Event.deliver := by
  decide

/-- C5 (amended): in every run in which the seen-ID commit occurs at all,
the run's effect order is extraction, then the commit, then delivery — the
commit precedes the delivery attempt, it never follows it. -/
theorem commit_precedes_delivery (f : List NewsItem) (s : Finset String)
    (i : List IdeaItem) (h : Event.save ∈ mainTrace f s i) :
    mainTrace f s i = [Event.extract, Event.save, Event.deliver] := by
  unfold mainTrace at h ⊢
  by_cases h1 : (finalNewsForAI f s).isEmpty <;> by_cases h2 : i.isEmpty <;>
    simp [h1, h2] at h ⊢

/-- C5 (witness): the amended ordering at a concrete run that commits. -/
theorem commit_precedes_delivery_witness :
    mainTrace [gateItem] ∅ [kaufIdea] = [Event.extract, Event.save, Event.deliver] :=
  commit_precedes_delivery [gateItem] ∅ [kaufIdea] (by decide)

/-- C6: the persisted seen-ID set only grows: every run ends with a
superset of the loaded set, and the end state is either the loaded set
unchanged or its union with the run's current ids (line 498's
`last_ids.union(current_ids)`). -/
theorem seen_ids_monotone (lastIds : Finset String) (f : List NewsItem)
    (i : List IdeaItem) :
    lastIds ⊆ runEndState lastIds f i ∧
    (runEndState lastIds f i = lastIds ∨
      runEndState lastIds f i = lastIds ∪ currentIds f) := by
  unfold runEndState
  split
  · exact ⟨Finset.Subset.refl _, Or.inl rfl⟩
  · split
    · exact ⟨Finset.Subset.refl _, Or.inl rfl⟩
    · exact ⟨Finset.subset_union_left, Or.inr rfl⟩

/-- C7: an id already in the loaded seen set is excluded from the run's
new-id set (`current_ids - last_ids`) and from the list handed to
extraction. -/
theorem no_double_delivery (lastIds : Finset String) (f : List NewsItem)
    (x : String) (h : x ∈ lastIds) :
    x ∉ newIds f lastIds ∧ ∀ n ∈ finalNewsForAI f lastIds, n.url ≠ x := by
  constructor
  · unfold newIds
    simp [Finset.mem_sdiff, h]
  · intro n hn hx
    unfold finalNewsForAI at hn
    have hmem := List.mem_filter.mp hn
    have hurl : n.url ∈ newIds f lastIds := by simpa using hmem.2
    rw [hx] at hurl
    exact (Finset.mem_sdiff.mp hurl).2 h

/-- C7 (witness): the no-double-delivery property at a concrete seen id. -/
theorem no_double_delivery_witness :
    "u1" ∉ newIds [gateItem] {"u1"} ∧
    ∀ n ∈ finalNewsForAI [gateItem] {"u1"}, n.url ≠ "u1" :=
  no_double_delivery {"u1"} [gateItem] "u1" (by decide)

/-- C8: loading the seen-ID set yields the empty set whenever the state
file is missing or its contents fail to parse, instead of raising. -/
theorem load_resilient (file : Option String)
    (parseJson : String → Option (List String))
    (h : ∀ t, file = some t → parseJson t = none) :
    load_last_ids file parseJson = ∅ := by
  cases file with
  | none => rfl
  | some s =>
    have hp := h s rfl
    simp [load_last_ids, hp]

/-- C8 (witness): a corrupt state file whose parse fails loads as the
empty set. -/
theorem load_resilient_witness :
    load_last_ids (some "garbage") (fun _ => none) = ∅ :=
  load_resilient (some "garbage") (fun _ => none) (fun _ _ => rfl)

/-- C9: when every model in the priority list fails (its attempt yields no
validated output), the extraction returns the empty `IdeaOutput` — it is a
total function, so the pipeline completes without raising. -/
theorem fallback_exhaustion (attempts : List (Option IdeaOutput))
    (h : ∀ a ∈ attempts, a = none) :
    analyze_with_gemini attempts = ⟨[]⟩ := by
  induction attempts with
  | nil => rfl
  | cons a rest ih =>
    have ha : a = none := h a (List.mem_cons_self a rest)
    subst ha
    exact ih fun x hx => h x (List.mem_cons_of_mem _ hx)

/-- C9 (witness): all three configured models failing yields the empty
output. -/
theorem fallback_exhaustion_witness :
    analyze_with_gemini [none, none, none] = ⟨[]⟩ :=
  fallback_exhaustion [none, none, none] (by simp)

/-- C10: the seen-ID commit happens exactly when the run had new relevant
items and the extraction returned at least one candidate; when extraction
returned no ideas, or there were no new items, the persisted state is
unchanged. -/
theorem commit_only_with_ideas (f : List NewsItem) (s : Finset String)
    (i : List IdeaItem) :
    (Event.save ∈ mainTrace f s i ↔ (finalNewsForAI f s ≠ [] ∧ i ≠ [])) ∧
    (i = [] → runEndState s f i = s) ∧
    (finalNewsForAI f s = [] → runEndState s f i = s) := by
  unfold mainTrace runEndState
  by_cases h1 : (finalNewsForAI f s).isEmpty <;> by_cases h2 : i.isEmpty <;>
    simp_all [List.isEmpty_iff]

end FinanzBot
